import Mathlib

/-!
A shallow embedding of the API dispatch and diagnostic-task orchestration
layer of the sysom_mcp repository:

* `DiagnosisMCPHelper.execute` / `DiagnosisMCPHelper._wait_for_result`
  (src/tools/lib/diagnosis_helper.py) — modelled by `Diag.execute` and
  `Diag.waitLoop`, with the remote `call_api` outcomes supplied by an
  environment (a function from poll index to outcome) and wall-clock time
  made explicit (each poll call advances time by its latency, each sleep by
  `pollInterval`).  The polling loop is expressed with explicit fuel
  (`none` = fuel exhausted); fuel `timeout + 1` is proved sufficient
  whenever `pollInterval ≥ 1`.
* `APIRegistry` (src/mcp/lib/api_registry.py) — modelled by `Reg.Registry`
  as a map from api name to route, with `register_framework`,
  `register_sdk`, `get_route`, `get_framework_route`, `get_sdk_route`.
* `SysomFrameworkClient.call_api` and `AlibabaCloudSDKClient.call_api`
  (src/mcp/lib/openapi_client.py; the SDK client is duplicated verbatim in
  src/tools/lib/openapi_client.py) — modelled by `Client.frameworkCallApi`
  and `Client.sdkCallApi`; the transport call itself is an environment
  value, with a raised exception represented as `Except.error` and caught
  exactly where the Python `try`/`except` catches it.
* `ClientFactory.create_client` (src/tools/lib/openapi_client.py) —
  modelled by `Factory.create_client`, instrumented to also return the
  `CredentialConfig` handed to the role-assumption exchange (if any).

Python values that flow through untyped dictionaries are modelled by
`PyVal`; `dict.get` with/without defaults and Python's falsy `or` are
modelled by `Option.getD` and `pyOr`/`pyOrStr`.
-/

/-- A Python value as it appears in the orchestrator's untyped payloads:
`None`, a string, a dict, or some other object (tagged by its type name). -/
inductive PyVal where
  | vnone : PyVal
  | vstr (s : String) : PyVal
  | vdict (entries : List (String × PyVal)) : PyVal
  | vother (typeName : String) : PyVal

/-- Python `a or b` on an optional string `a` (both `None` and `""` are
falsy and fall through to the default). -/
def pyOrStr : Option String → String → String
  | none, d => d
  | some s, d => if s = "" then d else s

/-- Python truthiness of an optional string (`None` and `""` are falsy). -/
def truthy : Option String → Bool
  | none => false
  | some s => s ≠ ""

/-- Python `a or b` where both sides are optional strings. -/
def pyOr (a b : Option String) : Option String :=
  if truthy a then a else b

namespace DiagnoseResultCode

/-- Model of `DiagnoseResultCode.SUCCESS` from diagnosis_helper.py. -/
abbrev SUCCESS : String := "Success"

/-- Model of `DiagnoseResultCode.TASK_CREATE_FAILED`. -/
abbrev TASK_CREATE_FAILED : String := "TaskCreateFailed"

/-- Model of `DiagnoseResultCode.TASK_EXECUTE_FAILED`. -/
abbrev TASK_EXECUTE_FAILED : String := "TaskExecuteFailed"

/-- Model of `DiagnoseResultCode.TASK_TIMEOUT`. -/
abbrev TASK_TIMEOUT : String := "TaskTimeout"

/-- Model of `DiagnoseResultCode.RESULT_PARSE_FAILED`. -/
abbrev RESULT_PARSE_FAILED : String := "ResultParseFailed"

/-- Model of `DiagnoseResultCode.GET_RESULT_FAILED`. -/
abbrev GET_RESULT_FAILED : String := "GetResultFailed"

end DiagnoseResultCode

namespace Diag

open DiagnoseResultCode

/-- The `data` sub-dictionary of a diagnosis API response, restricted to
the keys the orchestrator reads.  `Option` models key absence for keys
read with `dict.get`; `result` is read with no default, so a missing key
and a stored `None` coincide as `PyVal.vnone`. -/
structure DataDict where
  task_id : Option String
  status : Option String
  err_msg : Option String
  result : PyVal

/-- The empty dict `{}` used as default for `response_data.get("data", {})`. -/
def DataDict.empty : DataDict := ⟨none, none, none, PyVal.vnone⟩

/-- A diagnosis API response payload, after the `TeaModel → dict`
normalisation performed by `execute`/`_wait_for_result`, restricted to the
keys the orchestrator reads. -/
structure RespDict where
  code : Option String
  message : Option String
  data : Option DataDict

/-- Outcome of one `client.call_api` invocation, as observed by the
orchestrator: the `(success, response_data, error_msg)` triple collapsed
to its two reachable shapes. -/
inductive CallOutcome where
  | failure (error_msg : Option String) : CallOutcome
  | success (data : RespDict) : CallOutcome

/-- The f-string timeout message of `_wait_for_result`. -/
def timeoutMsg (timeout : Nat) (taskId : String) : String :=
  "诊断执行超时（" ++ toString timeout ++ "秒），task_id: " ++ taskId

/-- Result of `_wait_for_result`: the `(code, message, result)` triple,
instrumented with the number of get-result calls made and the number of
`asyncio.sleep(poll_interval)` sleeps performed. -/
structure WaitResult where
  code : String
  message : String
  result : PyVal
  pollCalls : Nat
  sleeps : Nat

/-- The polling loop of `DiagnosisMCPHelper._wait_for_result`
(diagnosis_helper.py lines 200–233).  `polls n` is the outcome of the
`n`-th get-result call, `lat n` its latency; `time` is the elapsed
wall-clock time since loop entry, advanced by call latency and by each
sleep.  `fuel` bounds the recursion; `none` means fuel ran out (proved
impossible for fuel `timeout + 1` when `1 ≤ pollInterval`). -/
def waitLoop (timeout pollInterval : Nat) (taskId : String)
    (polls : Nat → CallOutcome) (lat : Nat → Nat) :
    Nat → Nat → Nat → Nat → Option WaitResult
  | 0, _, _, _ => none
  | fuel + 1, n, time, sleeps =>
    if time < timeout then
      match polls n with
      | CallOutcome.failure err =>
          some ⟨GET_RESULT_FAILED, pyOrStr err "获取结果失败", PyVal.vnone, n + 1, sleeps⟩
      | CallOutcome.success rd =>
          if rd.code = some "Success" then
            let data := rd.data.getD DataDict.empty
            if data.status = some "Fail" then
              some ⟨TASK_EXECUTE_FAILED, data.err_msg.getD "任务执行失败", PyVal.vnone,
                    n + 1, sleeps⟩
            else if data.status = some "Success" then
              some ⟨SUCCESS, "", data.result, n + 1, sleeps⟩
            else
              waitLoop timeout pollInterval taskId polls lat
                fuel (n + 1) (time + lat n + pollInterval) (sleeps + 1)
          else
            some ⟨GET_RESULT_FAILED, rd.message.getD "获取结果失败", PyVal.vnone,
                  n + 1, sleeps⟩
    else
      some ⟨TASK_TIMEOUT, timeoutMsg timeout taskId, PyVal.vnone, n, sleeps⟩

/-- Model of `DiagnosisMCPHelper._wait_for_result`, entered at elapsed time 0 with
fuel `timeout + 1`. -/
def wait_for_result (timeout pollInterval : Nat) (taskId : String)
    (polls : Nat → CallOutcome) (lat : Nat → Nat) : Option WaitResult :=
  waitLoop timeout pollInterval taskId polls lat (timeout + 1) 0 0 0

/-- The fields of `DiagnosisMCPResponse` (pydantic defaults:
`message = ""`, `task_id = ""`, `result = {}`). -/
structure DiagnosisMCPResponse where
  code : String
  message : String
  task_id : String
  result : PyVal

/-- Stand-in for Python `str()` on the payload shapes that can reach the
`str(result)` call in `execute` (only its totality matters to the claims). -/
def pyStr : PyVal → String
  | PyVal.vnone => "None"
  | PyVal.vstr s => s
  | PyVal.vdict _ => "dict"
  | PyVal.vother t => t

/-- Stand-in for Python `type(result)` rendering in the shape-error message. -/
def pyTypeName : PyVal → String
  | PyVal.vnone => "NoneType"
  | PyVal.vstr _ => "str"
  | PyVal.vdict _ => "dict"
  | PyVal.vother t => t

/-- Result of `execute`, instrumented with the number of get-result calls
made and sleeps performed (both 0 when polling never starts). -/
structure ExecResult where
  resp : DiagnosisMCPResponse
  pollCalls : Nat
  sleeps : Nat

/-- The task id extracted by `execute`:
`response_data.get("data", {}).get("task_id", "")`. -/
def taskIdOf (rd : RespDict) : String :=
  ((rd.data.getD DataDict.empty).task_id).getD ""

/-- Model of `DiagnosisMCPHelper.execute` (diagnosis_helper.py lines 76–167).
`submit` is the outcome of the invoke-diagnosis call; `jsonLoads` models
`json.loads` (`Except.error e` = a decode exception with message `e`).
Route registration is elided: call outcomes come from the environment.
`none` propagates fuel exhaustion of the polling loop. -/
def execute (timeout pollInterval : Nat) (submit : CallOutcome)
    (polls : Nat → CallOutcome) (lat : Nat → Nat)
    (jsonLoads : String → Except String PyVal) : Option ExecResult :=
  match submit with
  | CallOutcome.failure err =>
      some ⟨⟨TASK_CREATE_FAILED, pyOrStr err "发起诊断失败", "", PyVal.vdict []⟩, 0, 0⟩
  | CallOutcome.success rd =>
      if rd.code = some "Success" then
        let task_id := taskIdOf rd
        match wait_for_result timeout pollInterval task_id polls lat with
        | none => none
        | some w =>
            if w.code = SUCCESS then
              match w.result with
              | PyVal.vstr s =>
                  match jsonLoads s with
                  | Except.ok v =>
                      some ⟨⟨SUCCESS, "", task_id, v⟩, w.pollCalls, w.sleeps⟩
                  | Except.error e =>
                      some ⟨⟨RESULT_PARSE_FAILED,
                             "结果解析失败：" ++ e ++ "，原始结果：" ++ s.take 200,
                             task_id, PyVal.vdict [("raw", PyVal.vstr s)]⟩,
                            w.pollCalls, w.sleeps⟩
              | PyVal.vdict d =>
                  some ⟨⟨SUCCESS, "", task_id, PyVal.vdict d⟩, w.pollCalls, w.sleeps⟩
              | r =>
                  some ⟨⟨RESULT_PARSE_FAILED,
                         "结果类型异常：" ++ pyTypeName r ++ "，期望字符串或字典",
                         task_id, PyVal.vdict [("raw", PyVal.vstr (pyStr r))]⟩,
                        w.pollCalls, w.sleeps⟩
            else
              some ⟨⟨w.code, w.message, task_id, PyVal.vdict []⟩, w.pollCalls, w.sleeps⟩
      else
        some ⟨⟨TASK_CREATE_FAILED, rd.message.getD "发起诊断失败", "", PyVal.vdict []⟩, 0, 0⟩

end Diag

namespace Reg

/-- Model of `SupportMode` from api_registry.py. -/
inductive SupportMode where
  | FRAMEWORK_ONLY : SupportMode
  | SDK_ONLY : SupportMode
  | BOTH : SupportMode
deriving DecidableEq

/-- Model of `FrameworkRoute`: url pattern, upper-cased HTTP method, service name. -/
structure FrameworkRoute where
  url_pattern : String
  method : String
  service_name : String
deriving DecidableEq

/-- Model of `FrameworkRoute.__init__` upper-cases the method. -/
def FrameworkRoute.mk' (url_pattern method service_name : String) : FrameworkRoute :=
  ⟨url_pattern, method.toUpper, service_name⟩

/-- Model of `SDKRoute`: the request/response model classes are represented by
their type tags, the bound `client_method` lambda by an opaque identifier. -/
structure SDKRoute where
  request_model : String
  response_model : String
  client_method : String
deriving DecidableEq

/-- Model of `APIRoute`: support mode plus the two optional binding records (the
`api_name` field always equals the registry key and is omitted). -/
structure APIRoute where
  support_mode : SupportMode
  framework_route : Option FrameworkRoute
  sdk_route : Option SDKRoute
deriving DecidableEq

/-- The registry's `_routes` dict: a map from api name to route.  The
singleton/lock machinery is concurrency plumbing; the table itself is the
state, passed explicitly. -/
def Registry := String → Option APIRoute

/-- The initial empty `_routes` table. -/
def Registry.empty : Registry := fun _ => none

/-- Python dict assignment `self._routes[api_name] = route`. -/
def Registry.insert (reg : Registry) (api_name : String) (route : APIRoute) : Registry :=
  fun n => if n = api_name then some route else reg n

/-- Model of `APIRegistry.register_framework` (api_registry.py lines 98–131). -/
def register_framework (reg : Registry) (api_name : String)
    (url_pattern method service_name : String) : Registry :=
  let framework_route := FrameworkRoute.mk' url_pattern method service_name
  match reg api_name with
  | some route =>
      let mode := if route.support_mode = SupportMode.SDK_ONLY then SupportMode.BOTH
                  else route.support_mode
      reg.insert api_name ⟨mode, some framework_route, route.sdk_route⟩
  | none =>
      reg.insert api_name ⟨SupportMode.FRAMEWORK_ONLY, some framework_route, none⟩

/-- Model of `APIRegistry.register_sdk` (api_registry.py lines 133–166). -/
def register_sdk (reg : Registry) (api_name : String)
    (request_model response_model client_method : String) : Registry :=
  let sdk_route : SDKRoute := ⟨request_model, response_model, client_method⟩
  match reg api_name with
  | some route =>
      let mode := if route.support_mode = SupportMode.FRAMEWORK_ONLY then SupportMode.BOTH
                  else route.support_mode
      reg.insert api_name ⟨mode, route.framework_route, some sdk_route⟩
  | none =>
      reg.insert api_name ⟨SupportMode.SDK_ONLY, none, some sdk_route⟩

/-- Model of `APIRegistry.get_route`: `self._routes.get(api_name)`. -/
def get_route (reg : Registry) (api_name : String) : Option APIRoute :=
  reg api_name

/-- Model of `APIRegistry.get_framework_route`. -/
def get_framework_route (reg : Registry) (api_name : String) : Option FrameworkRoute :=
  match get_route reg api_name with
  | some route => route.framework_route
  | none => none

/-- Model of `APIRegistry.get_sdk_route`. -/
def get_sdk_route (reg : Registry) (api_name : String) : Option SDKRoute :=
  match get_route reg api_name with
  | some route => route.sdk_route
  | none => none

end Reg

namespace Client

open Reg

/-- The request argument of `SysomFrameworkClient.call_api`: `None`, a
dict, or a non-dict object (tagged with its type name). -/
inductive FwRequest where
  | pyNone : FwRequest
  | dict (entries : List (String × PyVal)) : FwRequest
  | nonDict (typeName : String) : FwRequest

/-- The `(status, json_data, text)` triple returned by
`SysomFramework.gclient_get`/`gclient_post`. -/
structure FwResponse where
  status : Nat
  json_data : PyVal
  text : String

/-- The `(ok, payload, error)` triple returned by a backend `call_api`. -/
structure Triple (α : Type) where
  ok : Bool
  payload : Option α
  error : Option String

/-- Model of `SysomFrameworkClient.call_api` (src/mcp/lib/openapi_client.py lines
74–135).  `env` is the outcome of the one transport call this invocation
makes; `Except.error e` models an exception raised by the transport (the
surrounding `try` of the source converts it to a failure triple). -/
def frameworkCallApi (reg : Registry) (api_name : String) (request : FwRequest)
    (env : Except String FwResponse) : Triple PyVal :=
  match request with
  | FwRequest.nonDict ty =>
      ⟨false, none, some ("Framework调用时参数必须是字典类型，实际类型：" ++ ty)⟩
  | _ =>
      match get_framework_route reg api_name with
      | none =>
          ⟨false, none, some ("接口 " ++ api_name ++ " 未注册Framework路由或仅支持SDK调用")⟩
      | some _ =>
          match env with
          | Except.error e => ⟨false, none, some ("调用API失败，错误信息：" ++ e)⟩
          | Except.ok resp =>
              if resp.status = 200 then
                ⟨true, some resp.json_data, none⟩
              else
                ⟨false, none,
                 some ("HTTP状态码：" ++ toString resp.status ++ "，响应：" ++ resp.text)⟩

/-- The request argument of `AlibabaCloudSDKClient.call_api`: `None`, a
`TeaModel` instance (tagged with its model class), or a non-TeaModel
object (tagged with its type name). -/
inductive SDKRequest where
  | pyNone : SDKRequest
  | teaModel (modelType : String) : SDKRequest
  | nonTea (typeName : String) : SDKRequest

/-- The `body` of an SDK response, restricted to the attributes read on
the error path (`message = none` models the attribute being absent, in
which case `getattr` yields the default). -/
structure SDKBody where
  code : String
  message : Option String

/-- A response of the bound SDK client method. -/
structure SDKResponse where
  status_code : Nat
  body : SDKBody

/-- Model of `AlibabaCloudSDKClient.call_api` (src/mcp/lib/openapi_client.py lines
180–229; duplicated verbatim in src/tools/lib/openapi_client.py lines
92–141).  `env` is the outcome of `sdk_route.client_method(client, request)`
with exceptions as `Except.error`.  The second component records whether
the remote client method was invoked. -/
def sdkCallApi (reg : Registry) (api_name : String) (request : SDKRequest)
    (env : Except String SDKResponse) : Triple SDKBody × Bool :=
  match get_sdk_route reg api_name with
  | none =>
      (⟨false, none, some ("接口 " ++ api_name ++ " 未注册SDK路由或仅支持Framework调用")⟩,
       false)
  | some sdk_route =>
      match request with
      | SDKRequest.pyNone =>
          (⟨false, none, some "SDK调用需要TeaModel类型的请求对象"⟩, false)
      | SDKRequest.nonTea ty =>
          (⟨false, none, some ("SDK调用时参数必须是TeaModel类型，实际类型：" ++ ty)⟩, false)
      | SDKRequest.teaModel ty =>
          if ty = sdk_route.request_model then
            match env with
            | Except.error e =>
                (⟨false, none, some ("调用API失败，错误信息：" ++ e)⟩, true)
            | Except.ok resp =>
                if resp.status_code = 200 then
                  (⟨true, some resp.body, none⟩, true)
                else
                  let error_msg := resp.body.message.getD "Unknown error"
                  (⟨false, none,
                    some ("调用失败，状态码：" ++ resp.body.code ++ "，错误信息：" ++ error_msg)⟩,
                   true)
          else
            (⟨false, none,
              some ("请求类型错误，期望" ++ sdk_route.request_model ++ "，实际：" ++ ty)⟩,
             false)

end Client

namespace Factory

/-- The `SERVICE_CONFIG.openapi` fields read by the tools-side
`ClientFactory.create_client` (`none` models a `None`-valued field). -/
structure OpenapiConfig where
  type : Option String
  access_key_id : Option String
  access_key_secret : Option String
  security_token : Option String
  role_arn : Option String

/-- The keyword arguments of `create_client` that the body reads
(`none` = key absent from `kwargs`). -/
structure CreateKwargs where
  mode : Option String
  access_key_id : Option String
  access_key_secret : Option String
  security_token : Option String
  region_id : Option String

/-- The `CredentialConfig` handed to the role-assumption exchange. -/
structure CredentialConfig where
  type : String
  access_key_id : Option String
  access_key_secret : Option String
  role_arn : Option String
  role_session_name : String
  role_session_expiration : Nat
deriving DecidableEq

/-- The credential returned by `credentialsClient.get_credential()`. -/
structure Credential where
  access_key_id : Option String
  access_key_secret : Option String
  security_token : Option String

/-- The constructor arguments of the `AlibabaCloudSDKClient` the factory
returns (its stored `_mode`, `_access_key_id`, … fields). -/
structure SDKClientState where
  mode : Option String
  access_key_id : Option String
  access_key_secret : Option String
  security_token : Option String
  region_id : String
deriving DecidableEq

/-- Model of `ClientFactory.create_client` (src/tools/lib/openapi_client.py lines
151–215).  `getCredential` models the synchronous
`CredentialClient(config).get_credential()` exchange.  Instrumented to
also return the `CredentialConfig` used (or `none` when no exchange was
performed).  Note the source computes
`role_arn = kwargs.get("security_token") or SERVICE_CONFIG.openapi.role_arn`. -/
def create_client (cfg : OpenapiConfig) (kw : CreateKwargs)
    (getCredential : CredentialConfig → Credential) :
    SDKClientState × Option CredentialConfig :=
  let mode := pyOr kw.mode cfg.type
  let access_key_id := pyOr kw.access_key_id cfg.access_key_id
  let access_key_secret := pyOr kw.access_key_secret cfg.access_key_secret
  let security_token := pyOr kw.security_token cfg.security_token
  let region_id := kw.region_id.getD "cn-hangzhou"
  let role_arn := pyOr kw.security_token cfg.role_arn
  if mode = some "ram_role_arn" then
    let credentialsConfig : CredentialConfig :=
      ⟨"ram_role_arn", access_key_id, access_key_secret, role_arn, "SYSOM_MCP_SERVER", 3600⟩
    let credential := getCredential credentialsConfig
    (⟨some "sts", credential.access_key_id, credential.access_key_secret,
      credential.security_token, region_id⟩,
     some credentialsConfig)
  else
    (⟨mode, access_key_id, access_key_secret, security_token, region_id⟩, none)

end Factory

/-- The well-formedness contract of a backend `(ok, payload, error)`
triple: success carries no error; failure carries no payload and a
non-empty error message. -/
def tripleWF {α : Type} (t : Client.Triple α) : Prop :=
  (t.ok = true → t.error = none) ∧
  (t.ok = false → t.payload = none ∧ ∃ s, t.error = some s ∧ 0 < s.length)

/-! ## Lemmas and claim theorems -/

lemma append_len_pos (a b : String) (h : 0 < a.length) : 0 < (a ++ b).length := by
  rw [String.length_append]
  omega

namespace Diag

open DiagnoseResultCode

lemma waitLoop_timeout_step {timeout pollInterval : Nat} {taskId : String}
    {polls : Nat → CallOutcome} {lat : Nat → Nat} {fuel n time sleeps : Nat}
    (h : ¬ time < timeout) :
    waitLoop timeout pollInterval taskId polls lat (fuel + 1) n time sleeps
      = some ⟨TASK_TIMEOUT, timeoutMsg timeout taskId, PyVal.vnone, n, sleeps⟩ := by
  simp [waitLoop, h]

lemma waitLoop_running_step {timeout pollInterval : Nat} {taskId : String}
    {polls : Nat → CallOutcome} {lat : Nat → Nat} {fuel n time sleeps : Nat}
    {rd : RespDict}
    (h : time < timeout) (hp : polls n = CallOutcome.success rd)
    (hc : rd.code = some "Success")
    (h1 : (rd.data.getD DataDict.empty).status ≠ some "Fail")
    (h2 : (rd.data.getD DataDict.empty).status ≠ some "Success") :
    waitLoop timeout pollInterval taskId polls lat (fuel + 1) n time sleeps
      = waitLoop timeout pollInterval taskId polls lat
          fuel (n + 1) (time + lat n + pollInterval) (sleeps + 1) := by
  simp [waitLoop, h, hp, hc, h1, h2]

lemma waitLoop_success_step {timeout pollInterval : Nat} {taskId : String}
    {polls : Nat → CallOutcome} {lat : Nat → Nat} {fuel n time sleeps : Nat}
    {rd : RespDict}
    (h : time < timeout) (hp : polls n = CallOutcome.success rd)
    (hc : rd.code = some "Success")
    (hs : (rd.data.getD DataDict.empty).status = some "Success") :
    waitLoop timeout pollInterval taskId polls lat (fuel + 1) n time sleeps
      = some ⟨SUCCESS, "", (rd.data.getD DataDict.empty).result, n + 1, sleeps⟩ := by
  simp [waitLoop, h, hp, hc, hs]

/-- With positive poll interval and polls that never reach a terminal
state, the loop always terminates in the timeout branch once the fuel
exceeds the remaining time budget. -/
lemma waitLoop_allRunning (timeout pollInterval : Nat) (taskId : String)
    (polls : Nat → CallOutcome) (lat : Nat → Nat)
    (hpi : 1 ≤ pollInterval)
    (hrun : ∀ m, ∃ rd, polls m = CallOutcome.success rd ∧ rd.code = some "Success" ∧
      (rd.data.getD DataDict.empty).status ≠ some "Fail" ∧
      (rd.data.getD DataDict.empty).status ≠ some "Success") :
    ∀ fuel n time sleeps, timeout - time < fuel →
      ∃ calls s, waitLoop timeout pollInterval taskId polls lat fuel n time sleeps
        = some ⟨TASK_TIMEOUT, timeoutMsg timeout taskId, PyVal.vnone, calls, s⟩ := by
  intro fuel
  induction fuel with
  | zero => intro n time sleeps h; omega
  | succ fuel ih =>
      intro n time sleeps h
      by_cases ht : time < timeout
      · obtain ⟨rd, hp, hc, h1, h2⟩ := hrun n
        rw [waitLoop_running_step ht hp hc h1 h2]
        exact ih (n + 1) (time + lat n + pollInterval) (sleeps + 1) (by omega)
      · exact ⟨n, sleeps, waitLoop_timeout_step ht⟩

end Diag

/-- C2: if the submit call fails at the transport level or returns a
response whose code is not `"Success"`, `execute` returns code
`TaskCreateFailed` with an empty `task_id`, and makes no get-result call
(the instrumented poll-call count is 0). -/
theorem execute_createFailed_no_poll
    (timeout pollInterval : Nat) (submit : Diag.CallOutcome)
    (polls : Nat → Diag.CallOutcome) (lat : Nat → Nat)
    (jsonLoads : String → Except String PyVal)
    (h : match submit with
         | Diag.CallOutcome.failure _ => True
         | Diag.CallOutcome.success rd => rd.code ≠ some "Success") :
    ∃ m, Diag.execute timeout pollInterval submit polls lat jsonLoads
      = some ⟨⟨DiagnoseResultCode.TASK_CREATE_FAILED, m, "", PyVal.vdict []⟩, 0, 0⟩ := by
  match submit with
  | Diag.CallOutcome.failure err => exact ⟨_, rfl⟩
  | Diag.CallOutcome.success rd =>
      refine ⟨rd.message.getD "发起诊断失败", ?_⟩
      simp only [Diag.execute]
      rw [if_neg h]

/-- Witness for C2 at a concrete transport failure. -/
theorem execute_createFailed_no_poll_witness :
    ∃ m, Diag.execute 150 1 (Diag.CallOutcome.failure none)
        (fun _ => Diag.CallOutcome.failure none) (fun _ => 0)
        (fun _ => Except.error "boom")
      = some ⟨⟨DiagnoseResultCode.TASK_CREATE_FAILED, m, "", PyVal.vdict []⟩, 0, 0⟩ :=
  execute_createFailed_no_poll 150 1 _ _ _ _ trivial

/-- C5: registering a framework binding and an SDK binding for the same
name, in either order, yields a route with support mode `BOTH`;
re-registering the same binding kind just replaces that binding (the
registry after a repeated registration equals the registry after a single
registration with the latest data, so there is one route per name and the
other binding is untouched); and each registration maps the prior support
mode through an upgrade-only transition (in particular `BOTH` is never
downgraded). -/
theorem registry_both_upgrade_idempotent
    (reg : Reg.Registry) (n u m s u2 m2 s2 a b c a2 b2 c2 : String) :
    ((Reg.get_route (Reg.register_sdk (Reg.register_framework reg n u m s) n a b c) n).map
        Reg.APIRoute.support_mode = some Reg.SupportMode.BOTH)
  ∧ ((Reg.get_route (Reg.register_framework (Reg.register_sdk reg n a b c) n u m s) n).map
        Reg.APIRoute.support_mode = some Reg.SupportMode.BOTH)
  ∧ (Reg.register_framework (Reg.register_framework reg n u m s) n u2 m2 s2
       = Reg.register_framework reg n u2 m2 s2)
  ∧ (Reg.register_sdk (Reg.register_sdk reg n a b c) n a2 b2 c2
       = Reg.register_sdk reg n a2 b2 c2)
  ∧ (Reg.get_sdk_route (Reg.register_framework reg n u m s) n = Reg.get_sdk_route reg n)
  ∧ (Reg.get_framework_route (Reg.register_sdk reg n a b c) n
       = Reg.get_framework_route reg n)
  ∧ ((Reg.get_route (Reg.register_framework reg n u m s) n).map Reg.APIRoute.support_mode
       = some (match (Reg.get_route reg n).map Reg.APIRoute.support_mode with
               | none => Reg.SupportMode.FRAMEWORK_ONLY
               | some Reg.SupportMode.SDK_ONLY => Reg.SupportMode.BOTH
               | some x => x))
  ∧ ((Reg.get_route (Reg.register_sdk reg n a b c) n).map Reg.APIRoute.support_mode
       = some (match (Reg.get_route reg n).map Reg.APIRoute.support_mode with
               | none => Reg.SupportMode.SDK_ONLY
               | some Reg.SupportMode.FRAMEWORK_ONLY => Reg.SupportMode.BOTH
               | some x => x)) := by
  refine ⟨?_, ?_, ?_, ?_, ?_, ?_, ?_, ?_⟩
  · cases hr : reg n with
    | none => simp [Reg.register_framework, Reg.register_sdk, Reg.get_route,
        Reg.Registry.insert, hr]
    | some r =>
        cases hsm : r.support_mode <;>
          simp [Reg.register_framework, Reg.register_sdk, Reg.get_route,
            Reg.Registry.insert, hr, hsm]
  · cases hr : reg n with
    | none => simp [Reg.register_framework, Reg.register_sdk, Reg.get_route,
        Reg.Registry.insert, hr]
    | some r =>
        cases hsm : r.support_mode <;>
          simp [Reg.register_framework, Reg.register_sdk, Reg.get_route,
            Reg.Registry.insert, hr, hsm]
  · funext x
    by_cases hx : x = n
    · subst hx
      cases hr : reg x with
      | none => simp [Reg.register_framework, Reg.Registry.insert, hr]
      | some r =>
          cases hsm : r.support_mode <;>
            simp [Reg.register_framework, Reg.Registry.insert, hr, hsm]
    · cases hr : reg n <;>
        simp [Reg.register_framework, Reg.Registry.insert, hr, hx]
  · funext x
    by_cases hx : x = n
    · subst hx
      cases hr : reg x with
      | none => simp [Reg.register_sdk, Reg.Registry.insert, hr]
      | some r =>
          cases hsm : r.support_mode <;>
            simp [Reg.register_sdk, Reg.Registry.insert, hr, hsm]
    · cases hr : reg n <;>
        simp [Reg.register_sdk, Reg.Registry.insert, hr, hx]
  · cases hr : reg n <;>
      simp [Reg.register_framework, Reg.get_sdk_route, Reg.get_route,
        Reg.Registry.insert, hr]
  · cases hr : reg n <;>
      simp [Reg.register_sdk, Reg.get_framework_route, Reg.get_route,
        Reg.Registry.insert, hr]
  · cases hr : reg n with
    | none => simp [Reg.register_framework, Reg.get_route, Reg.Registry.insert, hr]
    | some r =>
        cases hsm : r.support_mode <;>
          simp [Reg.register_framework, Reg.get_route, Reg.Registry.insert, hr, hsm]
  · cases hr : reg n with
    | none => simp [Reg.register_sdk, Reg.get_route, Reg.Registry.insert, hr]
    | some r =>
        cases hsm : r.support_mode <;>
          simp [Reg.register_sdk, Reg.get_route, Reg.Registry.insert, hr, hsm]

/-- C6: an unregistered name resolves to no route; registering one name
creates no route for another; and a route lacking the binding of the
transport through which it is invoked makes `call_api` return a failure
triple carrying the routing-error message (with the SDK client method
never invoked), rather than raising. -/
theorem missing_binding_routing_error
    (reg : Reg.Registry) (n n2 u m s a b c : String)
    (req : Client.SDKRequest) (env : Except String Client.SDKResponse)
    (envf : Except String Client.FwResponse) (d : List (String × PyVal)) :
    Reg.get_route Reg.Registry.empty n = none
  ∧ (n ≠ n2 → Reg.get_route (Reg.register_framework reg n2 u m s) n = Reg.get_route reg n)
  ∧ (n ≠ n2 → Reg.get_route (Reg.register_sdk reg n2 a b c) n = Reg.get_route reg n)
  ∧ (Reg.get_sdk_route reg n = none →
       Client.sdkCallApi reg n req env
         = (⟨false, none, some ("接口 " ++ n ++ " 未注册SDK路由或仅支持Framework调用")⟩,
            false))
  ∧ (Reg.get_framework_route reg n = none →
       Client.frameworkCallApi reg n (Client.FwRequest.dict d) envf
         = ⟨false, none, some ("接口 " ++ n ++ " 未注册Framework路由或仅支持SDK调用")⟩
     ∧ Client.frameworkCallApi reg n Client.FwRequest.pyNone envf
         = ⟨false, none, some ("接口 " ++ n ++ " 未注册Framework路由或仅支持SDK调用")⟩) := by
  refine ⟨rfl, ?_, ?_, ?_, ?_⟩
  · intro hne
    cases hr : reg n2 <;>
      simp [Reg.register_framework, Reg.get_route, Reg.Registry.insert, hr, hne]
  · intro hne
    cases hr : reg n2 <;>
      simp [Reg.register_sdk, Reg.get_route, Reg.Registry.insert, hr, hne]
  · intro hsdk
    simp [Client.sdkCallApi, hsdk]
  · intro hfw
    constructor <;> simp [Client.frameworkCallApi, hfw]

/-- Witness for C6 at a registry holding only an SDK route for a
different name. -/
theorem missing_binding_routing_error_witness :
    Reg.get_route Reg.Registry.empty "op" = none
  ∧ Reg.get_route
      (Reg.register_framework (Reg.register_sdk Reg.Registry.empty "other" "RM" "RSP" "CM")
        "other" "/u" "get" "svc") "op"
      = Reg.get_route (Reg.register_sdk Reg.Registry.empty "other" "RM" "RSP" "CM") "op"
  ∧ Reg.get_route
      (Reg.register_sdk (Reg.register_sdk Reg.Registry.empty "other" "RM" "RSP" "CM")
        "other" "A" "B" "C") "op"
      = Reg.get_route (Reg.register_sdk Reg.Registry.empty "other" "RM" "RSP" "CM") "op"
  ∧ Client.sdkCallApi (Reg.register_sdk Reg.Registry.empty "other" "RM" "RSP" "CM") "op"
        (Client.SDKRequest.teaModel "RM") (Except.error "down")
      = (⟨false, none, some ("接口 " ++ "op" ++ " 未注册SDK路由或仅支持Framework调用")⟩,
         false)
  ∧ (Client.frameworkCallApi (Reg.register_sdk Reg.Registry.empty "other" "RM" "RSP" "CM")
        "op" (Client.FwRequest.dict []) (Except.error "down")
      = ⟨false, none, some ("接口 " ++ "op" ++ " 未注册Framework路由或仅支持SDK调用")⟩
     ∧ Client.frameworkCallApi (Reg.register_sdk Reg.Registry.empty "other" "RM" "RSP" "CM")
        "op" Client.FwRequest.pyNone (Except.error "down")
      = ⟨false, none, some ("接口 " ++ "op" ++ " 未注册Framework路由或仅支持SDK调用")⟩) := by
  have h := missing_binding_routing_error
    (Reg.register_sdk Reg.Registry.empty "other" "RM" "RSP" "CM")
    "op" "other" "/u" "get" "svc" "A" "B" "C"
    (Client.SDKRequest.teaModel "RM") (Except.error "down") (Except.error "down") []
  exact ⟨h.1, h.2.1 (by decide), h.2.2.1 (by decide), h.2.2.2.1 (by rfl),
         h.2.2.2.2 (by rfl)⟩

/-- C8: on a route with a registered SDK binding, a `None` request, a
non-TeaModel request, or a TeaModel request of a type other than the
route's declared request model each yield a caller-error failure triple,
and the bound client method is never invoked (the instrumented invocation
flag is `false`); no coercion is attempted. -/
theorem sdk_request_type_guard
    (reg : Reg.Registry) (n : String) (route : Reg.SDKRoute)
    (env : Except String Client.SDKResponse) (tyN tyT : String)
    (h : Reg.get_sdk_route reg n = some route) :
    Client.sdkCallApi reg n Client.SDKRequest.pyNone env
      = (⟨false, none, some "SDK调用需要TeaModel类型的请求对象"⟩, false)
  ∧ Client.sdkCallApi reg n (Client.SDKRequest.nonTea tyN) env
      = (⟨false, none, some ("SDK调用时参数必须是TeaModel类型，实际类型：" ++ tyN)⟩, false)
  ∧ (tyT ≠ route.request_model →
       Client.sdkCallApi reg n (Client.SDKRequest.teaModel tyT) env
         = (⟨false, none,
             some ("请求类型错误，期望" ++ route.request_model ++ "，实际：" ++ tyT)⟩,
            false)) := by
  refine ⟨?_, ?_, fun hne => ?_⟩
  · simp [Client.sdkCallApi, h]
  · simp [Client.sdkCallApi, h]
  · simp [Client.sdkCallApi, h, hne]

/-- Witness for C8 at a concrete registry and mismatched request type. -/
theorem sdk_request_type_guard_witness :
    Client.sdkCallApi (Reg.register_sdk Reg.Registry.empty "op" "RM" "RSP" "CM") "op"
        Client.SDKRequest.pyNone (Except.error "down")
      = (⟨false, none, some "SDK调用需要TeaModel类型的请求对象"⟩, false)
  ∧ Client.sdkCallApi (Reg.register_sdk Reg.Registry.empty "op" "RM" "RSP" "CM") "op"
        (Client.SDKRequest.nonTea "dict") (Except.error "down")
      = (⟨false, none, some ("SDK调用时参数必须是TeaModel类型，实际类型：" ++ "dict")⟩, false)
  ∧ Client.sdkCallApi (Reg.register_sdk Reg.Registry.empty "op" "RM" "RSP" "CM") "op"
        (Client.SDKRequest.teaModel "OtherRM") (Except.error "down")
      = (⟨false, none, some ("请求类型错误，期望" ++ "RM" ++ "，实际：" ++ "OtherRM")⟩,
         false) := by
  have h := sdk_request_type_guard
    (Reg.register_sdk Reg.Registry.empty "op" "RM" "RSP" "CM") "op" ⟨"RM", "RSP", "CM"⟩
    (Except.error "down") "dict" "OtherRM" (by rfl)
  exact ⟨h.1, h.2.1, h.2.2 (by decide)⟩

lemma tripleWF_fail {α : Type} (msg : String) (hm : 0 < msg.length) :
    tripleWF (⟨false, none, some msg⟩ : Client.Triple α) :=
  ⟨by simp, fun _ => ⟨rfl, msg, rfl, hm⟩⟩

lemma tripleWF_ok {α : Type} (payload : α) :
    tripleWF (⟨true, some payload, none⟩ : Client.Triple α) :=
  ⟨fun _ => rfl, by simp⟩

/-- C9: neither backend's `call_api` ever raises — every outcome,
including a transport exception supplied by the environment, is returned
as an `(ok, payload, error)` triple satisfying the shape invariant:
`ok = true` implies no error, and `ok = false` implies no payload and a
non-empty error message. -/
theorem call_api_never_raises_triple_wf
    (reg : Reg.Registry) (n : String) (req : Client.SDKRequest)
    (env : Except String Client.SDKResponse)
    (reqf : Client.FwRequest) (envf : Except String Client.FwResponse) :
    tripleWF (Client.sdkCallApi reg n req env).1
  ∧ tripleWF (Client.frameworkCallApi reg n reqf envf) := by
  constructor
  · unfold Client.sdkCallApi
    cases hs : Reg.get_sdk_route reg n with
    | none =>
        exact tripleWF_fail _ (append_len_pos _ _ (append_len_pos _ _ (by decide)))
    | some route =>
        cases req with
        | pyNone => exact tripleWF_fail _ (by decide)
        | nonTea ty => exact tripleWF_fail _ (append_len_pos _ _ (by decide))
        | teaModel ty =>
            by_cases hty : ty = route.request_model
            · simp only [if_pos hty]
              cases env with
              | error e => exact tripleWF_fail _ (append_len_pos _ _ (by decide))
              | ok resp =>
                  by_cases h200 : resp.status_code = 200
                  · simp only [if_pos h200]
                    exact tripleWF_ok _
                  · simp only [if_neg h200]
                    exact tripleWF_fail _
                      (append_len_pos _ _ (append_len_pos _ _ (append_len_pos _ _ (by decide))))
            · simp only [if_neg hty]
              exact tripleWF_fail _
                (append_len_pos _ _ (append_len_pos _ _ (append_len_pos _ _ (by decide))))
  · unfold Client.frameworkCallApi
    cases reqf with
    | nonDict ty => exact tripleWF_fail _ (append_len_pos _ _ (by decide))
    | pyNone =>
        cases hf : Reg.get_framework_route reg n with
        | none =>
            exact tripleWF_fail _ (append_len_pos _ _ (append_len_pos _ _ (by decide)))
        | some fr =>
            cases envf with
            | error e => exact tripleWF_fail _ (append_len_pos _ _ (by decide))
            | ok resp =>
                by_cases h200 : resp.status = 200
                · simp only [if_pos h200]
                  exact tripleWF_ok _
                · simp only [if_neg h200]
                  exact tripleWF_fail _
                    (append_len_pos _ _ (append_len_pos _ _ (append_len_pos _ _ (by decide))))
    | dict d =>
        cases hf : Reg.get_framework_route reg n with
        | none =>
            exact tripleWF_fail _ (append_len_pos _ _ (append_len_pos _ _ (by decide)))
        | some fr =>
            cases envf with
            | error e => exact tripleWF_fail _ (append_len_pos _ _ (by decide))
            | ok resp =>
                by_cases h200 : resp.status = 200
                · simp only [if_pos h200]
                  exact tripleWF_ok _
                · simp only [if_neg h200]
                  exact tripleWF_fail _
                    (append_len_pos _ _ (append_len_pos _ _ (append_len_pos _ _ (by decide))))

/-- C7: when the resolved credential mode is `"ram_role_arn"`, the factory
performs the role-assumption exchange with the base access key pair, the
fixed session name `"SYSOM_MCP_SERVER"` and a 3600-second session expiry,
and the client it constructs has mode `"sts"` (never `"ram_role_arn"`)
with its key pair and security token taken from the resolved credential. -/
theorem create_client_ram_role_resolves_sts
    (cfg : Factory.OpenapiConfig) (kw : Factory.CreateKwargs)
    (getCredential : Factory.CredentialConfig → Factory.Credential)
    (h : pyOr kw.mode cfg.type = some "ram_role_arn") :
    ∃ ccfg, (Factory.create_client cfg kw getCredential).2 = some ccfg
      ∧ ccfg.type = "ram_role_arn"
      ∧ ccfg.role_session_name = "SYSOM_MCP_SERVER"
      ∧ ccfg.role_session_expiration = 3600
      ∧ ccfg.access_key_id = pyOr kw.access_key_id cfg.access_key_id
      ∧ ccfg.access_key_secret = pyOr kw.access_key_secret cfg.access_key_secret
      ∧ (Factory.create_client cfg kw getCredential).1.mode = some "sts"
      ∧ (Factory.create_client cfg kw getCredential).1.mode ≠ some "ram_role_arn"
      ∧ (Factory.create_client cfg kw getCredential).1.security_token
          = (getCredential ccfg).security_token
      ∧ (Factory.create_client cfg kw getCredential).1.access_key_id
          = (getCredential ccfg).access_key_id
      ∧ (Factory.create_client cfg kw getCredential).1.access_key_secret
          = (getCredential ccfg).access_key_secret := by
  have hcc : Factory.create_client cfg kw getCredential
      = (⟨some "sts",
          (getCredential ⟨"ram_role_arn", pyOr kw.access_key_id cfg.access_key_id,
            pyOr kw.access_key_secret cfg.access_key_secret,
            pyOr kw.security_token cfg.role_arn, "SYSOM_MCP_SERVER", 3600⟩).access_key_id,
          (getCredential ⟨"ram_role_arn", pyOr kw.access_key_id cfg.access_key_id,
            pyOr kw.access_key_secret cfg.access_key_secret,
            pyOr kw.security_token cfg.role_arn, "SYSOM_MCP_SERVER", 3600⟩).access_key_secret,
          (getCredential ⟨"ram_role_arn", pyOr kw.access_key_id cfg.access_key_id,
            pyOr kw.access_key_secret cfg.access_key_secret,
            pyOr kw.security_token cfg.role_arn, "SYSOM_MCP_SERVER", 3600⟩).security_token,
          kw.region_id.getD "cn-hangzhou"⟩,
         some ⟨"ram_role_arn", pyOr kw.access_key_id cfg.access_key_id,
           pyOr kw.access_key_secret cfg.access_key_secret,
           pyOr kw.security_token cfg.role_arn, "SYSOM_MCP_SERVER", 3600⟩) := by
    simp only [Factory.create_client]
    rw [if_pos h]
  refine ⟨_, by rw [hcc], rfl, rfl, rfl, rfl, rfl, by rw [hcc], by rw [hcc]; simp,
          by rw [hcc], by rw [hcc], by rw [hcc]⟩

/-- Witness for C7 at a concrete configuration. -/
theorem create_client_ram_role_resolves_sts_witness :
    ∃ ccfg, (Factory.create_client
        ⟨some "ram_role_arn", some "AK", some "SK", none, some "acs:ram::1:role/r"⟩
        ⟨none, none, none, none, none⟩
        (fun _ => ⟨some "stsAK", some "stsSK", some "stsTOK"⟩)).2 = some ccfg
      ∧ ccfg.type = "ram_role_arn"
      ∧ ccfg.role_session_name = "SYSOM_MCP_SERVER"
      ∧ ccfg.role_session_expiration = 3600
      ∧ ccfg.access_key_id = pyOr none (some "AK")
      ∧ ccfg.access_key_secret = pyOr none (some "SK")
      ∧ (Factory.create_client
          ⟨some "ram_role_arn", some "AK", some "SK", none, some "acs:ram::1:role/r"⟩
          ⟨none, none, none, none, none⟩
          (fun _ => ⟨some "stsAK", some "stsSK", some "stsTOK"⟩)).1.mode = some "sts"
      ∧ (Factory.create_client
          ⟨some "ram_role_arn", some "AK", some "SK", none, some "acs:ram::1:role/r"⟩
          ⟨none, none, none, none, none⟩
          (fun _ => ⟨some "stsAK", some "stsSK", some "stsTOK"⟩)).1.mode
          ≠ some "ram_role_arn"
      ∧ (Factory.create_client
          ⟨some "ram_role_arn", some "AK", some "SK", none, some "acs:ram::1:role/r"⟩
          ⟨none, none, none, none, none⟩
          (fun _ => ⟨some "stsAK", some "stsSK", some "stsTOK"⟩)).1.security_token
          = ((fun _ => (⟨some "stsAK", some "stsSK", some "stsTOK"⟩ : Factory.Credential)) ccfg).security_token
      ∧ (Factory.create_client
          ⟨some "ram_role_arn", some "AK", some "SK", none, some "acs:ram::1:role/r"⟩
          ⟨none, none, none, none, none⟩
          (fun _ => ⟨some "stsAK", some "stsSK", some "stsTOK"⟩)).1.access_key_id
          = ((fun _ => (⟨some "stsAK", some "stsSK", some "stsTOK"⟩ : Factory.Credential)) ccfg).access_key_id
      ∧ (Factory.create_client
          ⟨some "ram_role_arn", some "AK", some "SK", none, some "acs:ram::1:role/r"⟩
          ⟨none, none, none, none, none⟩
          (fun _ => ⟨some "stsAK", some "stsSK", some "stsTOK"⟩)).1.access_key_secret
          = ((fun _ => (⟨some "stsAK", some "stsSK", some "stsTOK"⟩ : Factory.Credential)) ccfg).access_key_secret :=
  create_client_ram_role_resolves_sts
    ⟨some "ram_role_arn", some "AK", some "SK", none, some "acs:ram::1:role/r"⟩
    ⟨none, none, none, none, none⟩
    (fun _ => ⟨some "stsAK", some "stsSK", some "stsTOK"⟩)
    (by rfl)

/-- C10 counterexample: with the `security_token` keyword argument
supplied (as the empty string) and mode `"ram_role_arn"`, the role ARN
handed to the exchange is the *configured* `role_arn` — so the configured
value is consulted even though a `security_token` keyword argument was
supplied, contradicting the claim's "only when no security_token keyword
argument is supplied". -/
theorem create_client_role_arn_counterexample :
    ∃ ccfg, (Factory.create_client
        ⟨none, none, none, none, some "acs:ram::cfg:role"⟩
        ⟨some "ram_role_arn", some "AK", some "SK", some "", none⟩
        (fun _ => ⟨some "stsAK", some "stsSK", some "stsTOK"⟩)).2 = some ccfg
      ∧ ccfg.role_arn = some "acs:ram::cfg:role" :=
  ⟨_, rfl, rfl⟩

/-- C10 (amended): under mode `"ram_role_arn"`, a truthy (non-empty)
`security_token` keyword argument is used as the role ARN of the
exchange; the configured `role_arn` is consulted exactly when the
`security_token` keyword argument is absent or empty (falsy). -/
theorem create_client_role_arn_source
    (cfg : Factory.OpenapiConfig) (kw : Factory.CreateKwargs)
    (getCredential : Factory.CredentialConfig → Factory.Credential)
    (h : pyOr kw.mode cfg.type = some "ram_role_arn") :
    (∀ s, kw.security_token = some s → s ≠ "" →
       ∃ ccfg, (Factory.create_client cfg kw getCredential).2 = some ccfg
         ∧ ccfg.role_arn = some s)
  ∧ (truthy kw.security_token = false →
       ∃ ccfg, (Factory.create_client cfg kw getCredential).2 = some ccfg
         ∧ ccfg.role_arn = cfg.role_arn) := by
  have hcc : (Factory.create_client cfg kw getCredential).2
      = some ⟨"ram_role_arn", pyOr kw.access_key_id cfg.access_key_id,
          pyOr kw.access_key_secret cfg.access_key_secret,
          pyOr kw.security_token cfg.role_arn, "SYSOM_MCP_SERVER", 3600⟩ := by
    simp only [Factory.create_client]
    rw [if_pos h]
  constructor
  · intro s hs hne
    refine ⟨_, hcc, ?_⟩
    simp [pyOr, truthy, hs, hne]
  · intro ht
    refine ⟨_, hcc, ?_⟩
    simp [pyOr, ht]

/-- Witness for the amended C10: with a non-empty `security_token` keyword
argument the exchange uses it as the role ARN; with it absent the
configured value is used. -/
theorem create_client_role_arn_source_witness :
    (∃ ccfg, (Factory.create_client
        ⟨none, none, none, none, some "acs:ram::cfg:role"⟩
        ⟨some "ram_role_arn", some "AK", some "SK", some "tok", none⟩
        (fun _ => ⟨some "a", some "b", some "c"⟩)).2 = some ccfg
      ∧ ccfg.role_arn = some "tok")
  ∧ (∃ ccfg, (Factory.create_client
        ⟨none, none, none, none, some "acs:ram::cfg:role"⟩
        ⟨some "ram_role_arn", some "AK", some "SK", none, none⟩
        (fun _ => ⟨some "a", some "b", some "c"⟩)).2 = some ccfg
      ∧ ccfg.role_arn = some "acs:ram::cfg:role") := by
  constructor
  · exact (create_client_role_arn_source
      ⟨none, none, none, none, some "acs:ram::cfg:role"⟩
      ⟨some "ram_role_arn", some "AK", some "SK", some "tok", none⟩
      (fun _ => ⟨some "a", some "b", some "c"⟩) (by rfl)).1 "tok" rfl (by decide)
  · obtain ⟨c, hc, hr⟩ := (create_client_role_arn_source
      ⟨none, none, none, none, some "acs:ram::cfg:role"⟩
      ⟨some "ram_role_arn", some "AK", some "SK", none, none⟩
      (fun _ => ⟨some "a", some "b", some "c"⟩) (by rfl)).2 (by rfl)
    exact ⟨c, hc, hr⟩

/-- C1: when the submit call succeeds with code `"Success"` and task id
`"T1"`, and polls 0 and 1 return non-terminal statuses while poll 2
returns terminal success with a textual payload decoding to a dictionary,
`execute` returns code `"Success"`, task id `"T1"` and the decoded
dictionary, having made exactly 3 get-result calls and slept exactly
twice for `pollInterval` (once after each non-terminal poll). -/
theorem execute_success_after_two_running_polls
    (timeout pollInterval : Nat) (rd r0 r1 r2 : Diag.RespDict)
    (polls : Nat → Diag.CallOutcome) (lat : Nat → Nat)
    (jsonLoads : String → Except String PyVal) (s : String)
    (dres : List (String × PyVal))
    (hpi : 1 ≤ pollInterval)
    (htime : lat 0 + lat 1 + 2 * pollInterval < timeout)
    (hcode : rd.code = some "Success")
    (htid : Diag.taskIdOf rd = "T1")
    (hp0 : polls 0 = Diag.CallOutcome.success r0)
    (hc0 : r0.code = some "Success")
    (hs0f : (r0.data.getD Diag.DataDict.empty).status ≠ some "Fail")
    (hs0s : (r0.data.getD Diag.DataDict.empty).status ≠ some "Success")
    (hp1 : polls 1 = Diag.CallOutcome.success r1)
    (hc1 : r1.code = some "Success")
    (hs1f : (r1.data.getD Diag.DataDict.empty).status ≠ some "Fail")
    (hs1s : (r1.data.getD Diag.DataDict.empty).status ≠ some "Success")
    (hp2 : polls 2 = Diag.CallOutcome.success r2)
    (hc2 : r2.code = some "Success")
    (hs2 : (r2.data.getD Diag.DataDict.empty).status = some "Success")
    (hres : (r2.data.getD Diag.DataDict.empty).result = PyVal.vstr s)
    (hdec : jsonLoads s = Except.ok (PyVal.vdict dres)) :
    Diag.execute timeout pollInterval (Diag.CallOutcome.success rd) polls lat jsonLoads
      = some ⟨⟨DiagnoseResultCode.SUCCESS, "", "T1", PyVal.vdict dres⟩, 3, 2⟩ := by
  obtain ⟨k, hk⟩ : ∃ k, timeout = k + 3 := by
    refine ⟨timeout - 3, ?_⟩
    omega
  subst hk
  have hw : Diag.wait_for_result (k + 3) pollInterval "T1" polls lat
      = some ⟨DiagnoseResultCode.SUCCESS, "", PyVal.vstr s, 3, 2⟩ := by
    unfold Diag.wait_for_result
    rw [Diag.waitLoop_running_step (by omega) hp0 hc0 hs0f hs0s]
    rw [show k + 3 = k + 2 + 1 from rfl]
    rw [Diag.waitLoop_running_step (by omega) hp1 hc1 hs1f hs1s]
    rw [show k + 2 = k + 1 + 1 from rfl]
    rw [Diag.waitLoop_success_step (by omega) hp2 hc2 hs2]
    rw [hres]
  simp only [Diag.execute]
  rw [if_pos hcode, htid, hw]
  simp [hdec]

/-- Witness for C1: timeout 150, poll interval 1, zero latencies, polls
running, running, then success with payload decoding to a dictionary. -/
theorem execute_success_after_two_running_polls_witness :
    Diag.execute 150 1
        (Diag.CallOutcome.success
          ⟨some "Success", none, some ⟨some "T1", none, none, PyVal.vnone⟩⟩)
        (fun n => if n < 2
          then Diag.CallOutcome.success
            ⟨some "Success", none, some ⟨none, some "Running", none, PyVal.vnone⟩⟩
          else Diag.CallOutcome.success
            ⟨some "Success", none,
             some ⟨none, some "Success", none, PyVal.vstr "{}"⟩⟩)
        (fun _ => 0)
        (fun t => if t = "{}" then Except.ok (PyVal.vdict []) else Except.error "bad")
      = some ⟨⟨DiagnoseResultCode.SUCCESS, "", "T1", PyVal.vdict []⟩, 3, 2⟩ :=
  execute_success_after_two_running_polls 150 1
    ⟨some "Success", none, some ⟨some "T1", none, none, PyVal.vnone⟩⟩
    ⟨some "Success", none, some ⟨none, some "Running", none, PyVal.vnone⟩⟩
    ⟨some "Success", none, some ⟨none, some "Running", none, PyVal.vnone⟩⟩
    ⟨some "Success", none, some ⟨none, some "Success", none, PyVal.vstr "{}"⟩⟩
    (fun n => if n < 2
      then Diag.CallOutcome.success
        ⟨some "Success", none, some ⟨none, some "Running", none, PyVal.vnone⟩⟩
      else Diag.CallOutcome.success
        ⟨some "Success", none, some ⟨none, some "Success", none, PyVal.vstr "{}"⟩⟩)
    (fun _ => 0)
    (fun t => if t = "{}" then Except.ok (PyVal.vdict []) else Except.error "bad")
    "{}" []
    (by decide) (by decide) rfl rfl rfl rfl (by decide) (by decide)
    rfl rfl (by decide) (by decide) rfl rfl rfl rfl rfl

/-- C3: if the submit call succeeds with code `"Success"` and every poll
returns a succeeding response with a non-terminal status, the polling
loop terminates (with positive poll interval) and `execute` returns code
`TaskTimeout` with a message ending in the task id. -/
theorem execute_timeout_when_never_terminal
    (timeout pollInterval : Nat) (rd : Diag.RespDict)
    (polls : Nat → Diag.CallOutcome) (lat : Nat → Nat)
    (jsonLoads : String → Except String PyVal)
    (hpi : 1 ≤ pollInterval)
    (hcode : rd.code = some "Success")
    (hrun : ∀ m, ∃ r, polls m = Diag.CallOutcome.success r ∧ r.code = some "Success" ∧
        (r.data.getD Diag.DataDict.empty).status ≠ some "Fail" ∧
        (r.data.getD Diag.DataDict.empty).status ≠ some "Success") :
    (∃ calls sleeps,
       Diag.execute timeout pollInterval (Diag.CallOutcome.success rd) polls lat jsonLoads
         = some ⟨⟨DiagnoseResultCode.TASK_TIMEOUT,
                  Diag.timeoutMsg timeout (Diag.taskIdOf rd),
                  Diag.taskIdOf rd, PyVal.vdict []⟩, calls, sleeps⟩)
  ∧ ∃ pre, Diag.timeoutMsg timeout (Diag.taskIdOf rd) = pre ++ Diag.taskIdOf rd := by
  obtain ⟨calls, sleeps, hw⟩ :=
    Diag.waitLoop_allRunning timeout pollInterval (Diag.taskIdOf rd) polls lat hpi hrun
      (timeout + 1) 0 0 0 (by omega)
  refine ⟨⟨calls, sleeps, ?_⟩, _, rfl⟩
  simp only [Diag.execute]
  rw [if_pos hcode]
  unfold Diag.wait_for_result
  rw [hw]
  simp
  decide

/-- Witness for C3 at timeout 150, poll interval 1, always-running polls. -/
theorem execute_timeout_when_never_terminal_witness :
    (∃ calls sleeps,
       Diag.execute 150 1
           (Diag.CallOutcome.success
             ⟨some "Success", none, some ⟨some "T1", none, none, PyVal.vnone⟩⟩)
           (fun _ => Diag.CallOutcome.success
             ⟨some "Success", none, some ⟨none, some "Running", none, PyVal.vnone⟩⟩)
           (fun _ => 0) (fun _ => Except.error "unused")
         = some ⟨⟨DiagnoseResultCode.TASK_TIMEOUT,
                  Diag.timeoutMsg 150 (Diag.taskIdOf
                    ⟨some "Success", none, some ⟨some "T1", none, none, PyVal.vnone⟩⟩),
                  Diag.taskIdOf
                    ⟨some "Success", none, some ⟨some "T1", none, none, PyVal.vnone⟩⟩,
                  PyVal.vdict []⟩, calls, sleeps⟩)
  ∧ ∃ pre, Diag.timeoutMsg 150 (Diag.taskIdOf
        ⟨some "Success", none, some ⟨some "T1", none, none, PyVal.vnone⟩⟩)
      = pre ++ Diag.taskIdOf
        ⟨some "Success", none, some ⟨some "T1", none, none, PyVal.vnone⟩⟩ :=
  execute_timeout_when_never_terminal 150 1
    ⟨some "Success", none, some ⟨some "T1", none, none, PyVal.vnone⟩⟩
    (fun _ => Diag.CallOutcome.success
      ⟨some "Success", none, some ⟨none, some "Running", none, PyVal.vnone⟩⟩)
    (fun _ => 0) (fun _ => Except.error "unused")
    (by decide) rfl
    (fun m => ⟨⟨some "Success", none, some ⟨none, some "Running", none, PyVal.vnone⟩⟩,
      rfl, rfl, by decide, by decide⟩)

/-- C4: when polling ends in terminal success, the result payload is
handled by shape: a textual payload failing to decode yields
`ResultParseFailed` with the raw text exposed under `"raw"` in the
returned result; a dictionary payload is returned as-is under `Success`;
any other payload shape yields `ResultParseFailed`. -/
theorem execute_result_shape_handling
    (timeout pollInterval : Nat) (rd : Diag.RespDict)
    (polls : Nat → Diag.CallOutcome) (lat : Nat → Nat)
    (jsonLoads : String → Except String PyVal) (w : Diag.WaitResult)
    (hcode : rd.code = some "Success")
    (hw : Diag.wait_for_result timeout pollInterval (Diag.taskIdOf rd) polls lat = some w)
    (hwc : w.code = DiagnoseResultCode.SUCCESS) :
    (∀ s e, w.result = PyVal.vstr s → jsonLoads s = Except.error e →
       Diag.execute timeout pollInterval (Diag.CallOutcome.success rd) polls lat jsonLoads
         = some ⟨⟨DiagnoseResultCode.RESULT_PARSE_FAILED,
                  "结果解析失败：" ++ e ++ "，原始结果：" ++ s.take 200,
                  Diag.taskIdOf rd, PyVal.vdict [("raw", PyVal.vstr s)]⟩,
                 w.pollCalls, w.sleeps⟩)
  ∧ (∀ d, w.result = PyVal.vdict d →
       Diag.execute timeout pollInterval (Diag.CallOutcome.success rd) polls lat jsonLoads
         = some ⟨⟨DiagnoseResultCode.SUCCESS, "", Diag.taskIdOf rd, PyVal.vdict d⟩,
                 w.pollCalls, w.sleeps⟩)
  ∧ (∀ t, w.result = PyVal.vnone ∨ w.result = PyVal.vother t →
       ∃ m raw,
         Diag.execute timeout pollInterval (Diag.CallOutcome.success rd) polls lat jsonLoads
           = some ⟨⟨DiagnoseResultCode.RESULT_PARSE_FAILED, m, Diag.taskIdOf rd, raw⟩,
                   w.pollCalls, w.sleeps⟩) := by
  refine ⟨?_, ?_, ?_⟩
  · intro s e hres hdecE
    simp only [Diag.execute]
    rw [if_pos hcode, hw]
    simp [hwc, hres, hdecE]
  · intro d hres
    simp only [Diag.execute]
    rw [if_pos hcode, hw]
    simp [hwc, hres]
  · intro t hres
    rcases hres with hres | hres
    · refine ⟨"结果类型异常：" ++ Diag.pyTypeName PyVal.vnone ++ "，期望字符串或字典",
        PyVal.vdict [("raw", PyVal.vstr (Diag.pyStr PyVal.vnone))], ?_⟩
      simp only [Diag.execute]
      rw [if_pos hcode, hw]
      simp [hwc, hres]
    · refine ⟨"结果类型异常：" ++ Diag.pyTypeName (PyVal.vother t) ++ "，期望字符串或字典",
        PyVal.vdict [("raw", PyVal.vstr (Diag.pyStr (PyVal.vother t)))], ?_⟩
      simp only [Diag.execute]
      rw [if_pos hcode, hw]
      simp [hwc, hres]

/-- Witness for C4: one-poll terminal success with, in turn, a
non-decodable textual payload, a dictionary payload, and a `None` payload. -/
theorem execute_result_shape_handling_witness :
    Diag.execute 1 1
        (Diag.CallOutcome.success
          ⟨some "Success", none, some ⟨some "T1", none, none, PyVal.vnone⟩⟩)
        (fun _ => Diag.CallOutcome.success
          ⟨some "Success", none, some ⟨none, some "Success", none, PyVal.vstr "oops"⟩⟩)
        (fun _ => 0) (fun _ => Except.error "bad")
      = some ⟨⟨DiagnoseResultCode.RESULT_PARSE_FAILED,
               "结果解析失败：" ++ "bad" ++ "，原始结果：" ++ String.take "oops" 200,
               "T1", PyVal.vdict [("raw", PyVal.vstr "oops")]⟩, 1, 0⟩
  ∧ Diag.execute 1 1
        (Diag.CallOutcome.success
          ⟨some "Success", none, some ⟨some "T1", none, none, PyVal.vnone⟩⟩)
        (fun _ => Diag.CallOutcome.success
          ⟨some "Success", none,
           some ⟨none, some "Success", none, PyVal.vdict [("k", PyVal.vstr "v")]⟩⟩)
        (fun _ => 0) (fun _ => Except.error "bad")
      = some ⟨⟨DiagnoseResultCode.SUCCESS, "", "T1",
               PyVal.vdict [("k", PyVal.vstr "v")]⟩, 1, 0⟩
  ∧ ∃ m raw, Diag.execute 1 1
        (Diag.CallOutcome.success
          ⟨some "Success", none, some ⟨some "T1", none, none, PyVal.vnone⟩⟩)
        (fun _ => Diag.CallOutcome.success
          ⟨some "Success", none, some ⟨none, some "Success", none, PyVal.vnone⟩⟩)
        (fun _ => 0) (fun _ => Except.error "bad")
      = some ⟨⟨DiagnoseResultCode.RESULT_PARSE_FAILED, m, "T1", raw⟩, 1, 0⟩ := by
  refine ⟨?_, ?_, ?_⟩
  · exact (execute_result_shape_handling 1 1
      ⟨some "Success", none, some ⟨some "T1", none, none, PyVal.vnone⟩⟩
      (fun _ => Diag.CallOutcome.success
        ⟨some "Success", none, some ⟨none, some "Success", none, PyVal.vstr "oops"⟩⟩)
      (fun _ => 0) (fun _ => Except.error "bad")
      ⟨"Success", "", PyVal.vstr "oops", 1, 0⟩ rfl rfl rfl).1 "oops" "bad" rfl rfl
  · exact (execute_result_shape_handling 1 1
      ⟨some "Success", none, some ⟨some "T1", none, none, PyVal.vnone⟩⟩
      (fun _ => Diag.CallOutcome.success
        ⟨some "Success", none,
         some ⟨none, some "Success", none, PyVal.vdict [("k", PyVal.vstr "v")]⟩⟩)
      (fun _ => 0) (fun _ => Except.error "bad")
      ⟨"Success", "", PyVal.vdict [("k", PyVal.vstr "v")], 1, 0⟩ rfl rfl rfl).2.1
      [("k", PyVal.vstr "v")] rfl
  · exact (execute_result_shape_handling 1 1
      ⟨some "Success", none, some ⟨some "T1", none, none, PyVal.vnone⟩⟩
      (fun _ => Diag.CallOutcome.success
        ⟨some "Success", none, some ⟨none, some "Success", none, PyVal.vnone⟩⟩)
      (fun _ => 0) (fun _ => Except.error "bad")
      ⟨"Success", "", PyVal.vnone, 1, 0⟩ rfl rfl rfl).2.2 "X" (Or.inl rfl)

/-- Witness for C5 at the empty registry and concrete binding data. -/
theorem registry_both_upgrade_idempotent_witness :
    ((Reg.get_route (Reg.register_sdk (Reg.register_framework Reg.Registry.empty
          "op" "/u" "get" "svc") "op" "RM" "RSP" "CM") "op").map
        Reg.APIRoute.support_mode = some Reg.SupportMode.BOTH)
  ∧ ((Reg.get_route (Reg.register_framework (Reg.register_sdk Reg.Registry.empty
          "op" "RM" "RSP" "CM") "op" "/u" "get" "svc") "op").map
        Reg.APIRoute.support_mode = some Reg.SupportMode.BOTH)
  ∧ (Reg.register_framework (Reg.register_framework Reg.Registry.empty
          "op" "/u" "get" "svc") "op" "/u2" "post" "svc2"
       = Reg.register_framework Reg.Registry.empty "op" "/u2" "post" "svc2") := by
  have h := registry_both_upgrade_idempotent Reg.Registry.empty
    "op" "/u" "get" "svc" "/u2" "post" "svc2" "RM" "RSP" "CM" "RM2" "RSP2" "CM2"
  exact ⟨h.1, h.2.1, h.2.2.1⟩

/-- Witness for C9 at the empty registry and exception environments. -/
theorem call_api_never_raises_triple_wf_witness :
    tripleWF (Client.sdkCallApi Reg.Registry.empty "op" Client.SDKRequest.pyNone
        (Except.error "down")).1
  ∧ tripleWF (Client.frameworkCallApi Reg.Registry.empty "op" Client.FwRequest.pyNone
        (Except.error "down")) :=
  call_api_never_raises_triple_wf Reg.Registry.empty "op" Client.SDKRequest.pyNone
    (Except.error "down") Client.FwRequest.pyNone (Except.error "down")
